import Mathlib

/-
Shallow embedding of the kunit dimensional-rescaling engine
(src/kunit/core/fixed.py, units.py, engine.py, src/kunit/models/*,
src/kunit/api.py).

Python strings are modelled as lists of characters (`PyStr`), Python
floats as exact rationals (`ℚ`): decimal literals in the source are
taken at their exact decimal value, and float arithmetic is idealised
as exact rational arithmetic.  Python `**` with a possibly non-integer
float exponent is not expressible on `ℚ`; the two places the engine
uses it receive the power operation as an explicit parameter `fpow`.
-/

set_option maxRecDepth 20000
set_option maxHeartbeats 1000000
set_option allowUnsafeReducibility true
attribute [semireducible] Rat.mul Rat.inv Rat.add Rat.sub Rat.ofScientific

abbrev PyStr := List Char

def pyOf (s : String) : PyStr := s.data

/-- Single-quote character, used in Python error-message formatting. -/
def sqc : Char := Char.ofNat 39

/-- Python str.lstrip(): drop leading whitespace. -/
def pyLstrip (s : PyStr) : PyStr := s.dropWhile Char.isWhitespace

/-- Python str.strip(): drop leading and trailing whitespace. -/
def pyStrip (s : PyStr) : PyStr :=
  (((s.dropWhile Char.isWhitespace).reverse).dropWhile Char.isWhitespace).reverse

/-- Python str.rjust(n): left-pad with spaces to length n. -/
def rjust (n : Nat) (s : PyStr) : PyStr := List.replicate (n - s.length) ' ' ++ s

/-- Python str.ljust(n): right-pad with spaces to length n. -/
def ljust (n : Nat) (s : PyStr) : PyStr := s ++ List.replicate (n - s.length) ' '

def digitsToNat (ds : PyStr) : Nat :=
  ds.foldl (fun a c => a * 10 + (c.toNat - 48)) 0

/-- Optional sign parser: returns (isNegative, rest). -/
def parseSign : PyStr → Bool × PyStr
  | '+' :: r => (false, r)
  | '-' :: r => (true, r)
  | s => (false, s)

/-- Exponent suffix of a float literal: empty, or e/E with optional sign
and at least one digit, consuming the whole rest. -/
def parseExp : PyStr → Option ℤ
  | [] => some 0
  | c :: r =>
    if c = 'e' ∨ c = 'E' then
      let p := parseSign r
      let ed := p.2.takeWhile Char.isDigit
      let rest := p.2.dropWhile Char.isDigit
      if ed.isEmpty || !rest.isEmpty then none
      else some (if p.1 then -(digitsToNat ed : ℤ) else (digitsToNat ed : ℤ))
    else none

/-- Python float(s) on an already-stripped string, idealised to the exact
rational value of the decimal literal (non-finite literals such as
inf/nan and underscore separators are outside this idealisation). -/
def pyFloat? (s : PyStr) : Option ℚ :=
  let p := parseSign s
  let ip := p.2.takeWhile Char.isDigit
  let r2 := p.2.dropWhile Char.isDigit
  let fr : PyStr × PyStr :=
    match r2 with
    | '.' :: r => (r.takeWhile Char.isDigit, r.dropWhile Char.isDigit)
    | _ => ([], r2)
  if ip.isEmpty && fr.1.isEmpty then none
  else
    match parseExp fr.2 with
    | none => none
    | some e =>
      let mag : ℚ :=
        (digitsToNat (ip ++ fr.1) : ℚ) / (10 : ℚ) ^ (fr.1.length : ℕ) * (10 : ℚ) ^ e
      some (if p.1 then -mag else mag)

/-- fixed.py is_number: float(s.strip()) succeeds. -/
def is_number (s : PyStr) : Bool := (pyFloat? (pyStrip s)).isSome

def FIELD_WIDTH : Nat := 10
def N_FIELDS : Nat := 8

/-- One 10-character slice of an 80-character core line. -/
def chunk10 (core : PyStr) (i : Nat) : PyStr := (core.drop (10 * i)).take 10

def dropTrailingNewline (line : PyStr) : PyStr :=
  if line.getLast? = some '\n' then line.dropLast else line

/-- fixed.py split_fixed: strip one trailing newline, right-pad to 80
characters, cut into 8 contiguous 10-character fields. -/
def split_fixed (line : PyStr) : List PyStr :=
  let core := ljust 80 (dropTrailingNewline line)
  [chunk10 core 0, chunk10 core 1, chunk10 core 2, chunk10 core 3,
   chunk10 core 4, chunk10 core 5, chunk10 core 6, chunk10 core 7]

/-- fixed.py join_fixed inner step: strip, truncate to 10 if longer,
right-justify into a 10-character column. -/
def fieldCol (f : PyStr) : PyStr :=
  let s := pyStrip f
  let s := if s.length > 10 then s.take 10 else s
  rjust 10 s

/-- fixed.py join_fixed: columns concatenated plus one newline. -/
def join_fixed (fields : List PyStr) : PyStr :=
  (fields.map fieldCol).flatten ++ ['\n']

/-- Floor of a rational (den is positive, so flooring division works). -/
def ratFloor (q : ℚ) : ℤ := q.num.fdiv q.den

/-- Round to nearest integer, ties to even (CPython float formatting
uses round-half-even on the decimal expansion). -/
def roundHalfEven (q : ℚ) : ℤ :=
  let f := ratFloor q
  let r := q - (f : ℚ)
  if r < 1/2 then f
  else if 1/2 < r then f + 1
  else if f % 2 = 0 then f else f + 1

def natDigits (n : Nat) : PyStr := Nat.toDigits 10 n

/-- Decimal exponent e with 10^e ≤ a < 10^(e+1), for a > 0 (the digit
count difference of numerator and denominator is exact to within one
and is corrected by comparison). -/
def decExp (a : ℚ) : ℤ :=
  let g : ℤ := ((natDigits a.num.natAbs).length : ℤ) - ((natDigits a.den).length : ℤ)
  if a < (10 : ℚ) ^ g then g - 1 else if (10 : ℚ) ^ (g + 1) ≤ a then g + 1 else g

/-- Significand (p digits) and decimal exponent of a > 0 rounded to p
significant digits. -/
def sigDigits (a : ℚ) (p : Nat) : ℤ × ℤ :=
  let e := decExp a
  let n := roundHalfEven (a * (10 : ℚ) ^ ((p : ℤ) - 1 - e))
  if n = 10 ^ p then ((10 : ℤ) ^ (p - 1), e + 1) else (n, e)

def stripTrailZeros (ds : PyStr) : PyStr := (ds.reverse.dropWhile (· = '0')).reverse

/-- Exponent suffix digits: at least two, zero-padded. -/
def pad2 (k : Nat) : PyStr :=
  let ds := natDigits k
  if ds.length < 2 then '0' :: ds else ds

def expSuffix (ec : Char) (e : ℤ) : PyStr :=
  ec :: (if e < 0 then '-' else '+') :: pad2 e.natAbs

/-- Scientific mantissa d.ddd from a digit string (trailing zeros may
already be stripped; no decimal point if a single digit remains). -/
def sciMantissa (ds : PyStr) : PyStr :=
  match ds with
  | [] => ['0']
  | d :: rest => d :: (if rest.isEmpty then [] else '.' :: rest)

/-- Fixed-point rendering of digit string ds with decimal exponent e
(general format: trailing zeros already stripped). -/
def fixedRender (ds : PyStr) (e : ℤ) : PyStr :=
  if 0 ≤ e then
    let k := e.toNat + 1
    if ds.length ≤ k then ds ++ List.replicate (k - ds.length) '0'
    else ds.take k ++ '.' :: ds.drop k
  else pyOf "0." ++ List.replicate (e.natAbs - 1) '0' ++ ds

/-- Python format(v, ".{p}g"): p significant digits, trailing zeros
stripped, fixed notation for exponents in [-4, p), else scientific with
a lowercase e. -/
def gFormat (p : Nat) (v : ℚ) : PyStr :=
  if v = 0 then pyOf "0"
  else
    let sign : PyStr := if v < 0 then ['-'] else []
    let pp := max p 1
    let ne := sigDigits |v| pp
    let ds := stripTrailZeros (natDigits ne.1.toNat)
    if -4 ≤ ne.2 ∧ ne.2 < (pp : ℤ) then sign ++ fixedRender ds ne.2
    else sign ++ sciMantissa ds ++ expSuffix 'e' ne.2

/-- Python format(v, ".{p}E"): scientific, exactly p digits after the
point, uppercase E. -/
def eFormat (p : Nat) (v : ℚ) : PyStr :=
  if v = 0 then
    '0' :: (if p = 0 then [] else '.' :: List.replicate p '0') ++ pyOf "E+00"
  else
    let sign : PyStr := if v < 0 then ['-'] else []
    let ne := sigDigits |v| (p + 1)
    let ds := natDigits ne.1.toNat
    sign ++ (match ds with
      | [] => ['0']
      | d :: rest => d :: (if p = 0 then [] else '.' :: rest)) ++ expSuffix 'E' ne.2

/-- fixed.py format_lsdyna_10: 0.0 special case, then the first general
rendering (precision 9..4) of length ≤ 10, then the first scientific
rendering (precision 4..0) of length ≤ 10, else the 3-digit scientific
rendering truncated to 10 characters. -/
def format_lsdyna_10 (v : ℚ) : PyStr :=
  if v = 0 then pyOf "0.0"
  else
    match ([9, 8, 7, 6, 5, 4].map (fun p => gFormat p v)).find?
        (fun s => decide (s.length ≤ 10)) with
    | some s => s
    | none =>
      match ([4, 3, 2, 1, 0].map (fun p => eFormat p v)).find?
          (fun s => decide (s.length ≤ 10)) with
      | some s => s
      | none => (eFormat 3 v).take 10

/-- units.py BaseUnits: SI equivalents of one length/mass/time unit
(constructor order follows the source: length, mass, time). -/
structure BaseUnits where
  length_si : ℚ
  mass_si : ℚ
  time_si : ℚ
deriving DecidableEq

/-- units.py BASE_SYSTEMS registry, in source insertion order. -/
def BASE_SYSTEMS : List (PyStr × BaseUnits) :=
  [(pyOf "mm-mg-us", ⟨1/1000, 1/1000000, 1/1000000⟩),
   (pyOf "cm-g-us", ⟨1/100, 1/1000, 1/1000000⟩),
   (pyOf "m-kg-s", ⟨1, 1, 1⟩),
   (pyOf "mm-mg-ms", ⟨1/1000, 1/1000000, 1/1000⟩)]

/-- units.py DIM: (massExp, lengthExp, timeExp) for M^a L^b T^c. -/
abbrev DIM := ℤ × ℤ × ℤ

/-- units.py scale_factor. -/
def scale_factor (src dst : BaseUnits) (dim : DIM) : ℚ :=
  (src.mass_si / dst.mass_si) ^ dim.1
    * (src.length_si / dst.length_si) ^ dim.2.1
    * (src.time_si / dst.time_si) ^ dim.2.2

/-- Lexicographic string comparison (Python default sort order). -/
def pyStrLe : PyStr → PyStr → Bool
  | [], _ => true
  | _ :: _, [] => false
  | a :: as, b :: bs => if a < b then true else if b < a then false else pyStrLe as bs

def insertSorted (x : PyStr) : List PyStr → List PyStr
  | [] => [x]
  | y :: ys => if pyStrLe x y then x :: y :: ys else y :: insertSorted x ys

def sortStrs (l : List PyStr) : List PyStr := l.foldr insertSorted []

/-- api.py get_unit_keys: sorted unit system keys. -/
def get_unit_keys : List PyStr := sortStrs (BASE_SYSTEMS.map Prod.fst)

/-- Python repr of a list of strings, as interpolated by f-strings. -/
def pyReprStrList (l : List PyStr) : PyStr :=
  '[' :: (List.intercalate (pyOf ", ") (l.map (fun s => sqc :: s ++ [sqc]))) ++ [']']

/-- api.py message for an unknown unit system key. -/
def unknownUnitMsg (k : PyStr) : PyStr :=
  pyOf "Unknown unit key " ++ sqc :: k ++ sqc :: pyOf ". Known: " ++ pyReprStrList get_unit_keys

/-- Record context: field name to numeric value (transient, per block). -/
abbrev Ctx := PyStr → Option ℚ

/-- engine.py FieldTransform (defaults: power 1, multiplier 1, offset 0,
all optional fields absent). -/
structure FieldTransform where
  power : ℚ
  multiplier : ℚ
  offset : ℚ
  dim : Option DIM
  scale_dim : Option DIM
  scale_dim_field : Option PyStr
  scale_power_field : Option PyStr
  scale_power : Option ℚ

/-- engine.py FieldTransform.scale_exponent: context value of a truthy
scale_power_field if present there, else scale_power, else 1. -/
def FieldTransform.scale_exponent (t : FieldTransform) (context : Ctx) : ℚ :=
  match t.scale_power_field with
  | some f =>
    if !f.isEmpty then
      match context f with
      | some x => x
      | none => t.scale_power.getD 1
    else t.scale_power.getD 1
  | none => t.scale_power.getD 1

/-- engine.py FieldTransform.has_custom_scaling. -/
def FieldTransform.has_custom_scaling (t : FieldTransform) : Bool :=
  t.scale_dim.isSome || t.scale_dim_field.isSome
    || t.scale_power_field.isSome || t.scale_power.isSome

/-- engine.py FieldTransform.apply: (value ** power) * multiplier + offset,
with Python float ** supplied as fpow. -/
def FieldTransform.apply (t : FieldTransform) (fpow : ℚ → ℚ → ℚ) (value : ℚ) : ℚ :=
  fpow value t.power * t.multiplier + t.offset

/-- engine.py KeywordSpec (the dataclass has exactly these four fields;
dims is a dict, modelled as an association list with distinct keys). -/
structure KeywordSpec where
  name : PyStr
  keyword_prefix : PyStr
  cards : List (List PyStr)
  dims : List (PyStr × Option DIM)

/-- Python dims.get(name, None): membership and value collapse. -/
def dimsGet (dims : List (PyStr × Option DIM)) (k : PyStr) : Option DIM :=
  match dims.lookup k with
  | some v => v
  | none => none

/-- Python `name in dims`. -/
def dimsContains (dims : List (PyStr × Option DIM)) (k : PyStr) : Bool :=
  (dims.lookup k).isSome

/-- engine.py _is_data_line. -/
def _is_data_line (line : PyStr) : Bool :=
  let s := pyLstrip line
  if s.isEmpty || (pyOf "*").isPrefixOf s || (pyOf "$").isPrefixOf s then false
  else is_number (pyStrip ((split_fixed line).headD []))

/-- engine.py _extract_data_lines: indices of the first n data lines
(the early-exit loop is modelled as filter-then-take). -/
def _extract_data_lines (block : List PyStr) (n : Nat) : List Nat :=
  (((block.enum).filter (fun p => _is_data_line p.2)).map Prod.fst).take n

/-- engine.py ValueError message for an unknown scale_dim_field. -/
def unknownScaleDimFieldMsg (f field_name : PyStr) : PyStr :=
  pyOf "Unknown scale_dim_field " ++ sqc :: f ++ sqc :: pyOf " for " ++
    sqc :: field_name ++ [sqc]

/-- engine.py _convert_field; raised ValueError becomes Except.error. -/
def _convert_field (fpow : ℚ → ℚ → ℚ) (field_name raw_field : PyStr)
    (src dst : BaseUnits) (dims : List (PyStr × Option DIM))
    (transform : Option FieldTransform) (context : Option Ctx) :
    Except PyStr PyStr :=
  let s := pyStrip raw_field
  if s.isEmpty || !is_number s then .ok s
  else
    let dim : Option DIM :=
      match transform with
      | some t => match t.dim with
        | some d => some d
        | none => dimsGet dims field_name
      | none => dimsGet dims field_name
    let value : ℚ := (pyFloat? s).getD 0
    let ctx : Ctx := context.getD (fun _ => none)
    match transform with
    | some t =>
      if t.has_custom_scaling then
        let scaleDimE : Except PyStr (Option DIM) :=
          match t.scale_dim with
          | some d => .ok (some d)
          | none =>
            match t.scale_dim_field with
            | some f =>
              if !dimsContains dims f then .error (unknownScaleDimFieldMsg f field_name)
              else .ok (dimsGet dims f)
            | none => .ok dim
        match scaleDimE with
        | .error e => .error e
        | .ok sd =>
          let v1 := match sd with
            | some d => value * fpow (scale_factor src dst d) (t.scale_exponent ctx)
            | none => value
          .ok (format_lsdyna_10 (t.apply fpow v1))
      else
        let v1 := match dim with
          | some d => value * scale_factor src dst d
          | none => value
        .ok (format_lsdyna_10 (t.apply fpow v1))
    | none =>
      let v1 := match dim with
        | some d => value * scale_factor src dst d
        | none => value
      .ok (format_lsdyna_10 v1)

/-- engine.py CustomTransformMap: spec name to field name to transform. -/
abbrev CustomTransformMap := PyStr → PyStr → Option FieldTransform

def isSkipName (name : PyStr) : Bool :=
  name = pyOf "mid" || name = pyOf "eosid" || name = pyOf "_"

/-- Context-building pass of engine.py convert_block. -/
def buildContext (block : List PyStr) (data_idxs : List Nat)
    (cards : List (List PyStr)) : Ctx :=
  (data_idxs.zip cards).foldl
    (fun ctx p =>
      let fields := split_fixed (block.getD p.1 [])
      (p.2.zip fields).foldl
        (fun ctx q =>
          if isSkipName q.1 then ctx
          else
            let raw_val := pyStrip q.2
            if is_number raw_val then
              fun k => if k = q.1 then pyFloat? raw_val else ctx k
            else ctx)
        ctx)
    (fun _ => none)

/-- engine.py convert_block. -/
def convert_block (fpow : ℚ → ℚ → ℚ) (block : List PyStr) (spec : KeywordSpec)
    (src dst : BaseUnits) (custom_transforms : Option CustomTransformMap) :
    Except PyStr (List PyStr) :=
  let out := block
  let data_idxs := _extract_data_lines block spec.cards.length
  if data_idxs.length < spec.cards.length then .ok out
  else
    let spec_transforms : PyStr → Option FieldTransform :=
      match custom_transforms with
      | some m => m spec.name
      | none => fun _ => none
    let context := buildContext block data_idxs spec.cards
    (data_idxs.zip spec.cards).foldlM
      (fun out p => do
        let fields := split_fixed (block.getD p.1 [])
        let new_fields ← (p.2.zip fields).mapM
          (fun q =>
            if isSkipName q.1 then Except.ok (pyStrip q.2)
            else _convert_field fpow q.1 q.2 src dst spec.dims
              (spec_transforms q.1) (some context))
        pure (out.set p.1 (join_fixed new_fields)))
      out

/-- Python text.splitlines(keepends=True), restricted to newline
terminators. -/
def splitKeepAux : PyStr → PyStr → List PyStr
  | acc, [] => if acc.isEmpty then [] else [acc.reverse]
  | acc, '\n' :: rest => (acc.reverse ++ ['\n']) :: splitKeepAux [] rest
  | acc, c :: rest => splitKeepAux (c :: acc) rest

def splitKeep (s : PyStr) : List PyStr := splitKeepAux [] s

def pyToUpper (s : PyStr) : PyStr := s.map Char.toUpper

def pyToLower (s : PyStr) : PyStr := s.map Char.toLower

def isKeywordStart (l : PyStr) : Bool := (pyOf "*").isPrefixOf (pyLstrip l)

/-- Scan loop of engine.py convert_text; fuel is the number of remaining
lines (each iteration consumes at least one line). -/
def convert_text_go (fpow : ℚ → ℚ → ℚ) (spec_map : List (PyStr × KeywordSpec))
    (src dst : BaseUnits) (ct : Option CustomTransformMap) :
    Nat → List PyStr → Except PyStr (List PyStr)
  | 0, _ => .ok []
  | _, [] => .ok []
  | fuel + 1, line :: rest =>
    let u := pyToUpper (pyLstrip line)
    match spec_map.find? (fun p => p.1.isPrefixOf u) with
    | none => do
      let tail ← convert_text_go fpow spec_map src dst ct fuel rest
      pure (line :: tail)
    | some pr =>
      let body := rest.takeWhile (fun l => !isKeywordStart l)
      let rest2 := rest.dropWhile (fun l => !isKeywordStart l)
      do
        let blk ← convert_block fpow (line :: body) pr.2 src dst ct
        let tail ← convert_text_go fpow spec_map src dst ct fuel rest2
        pure (blk ++ tail)

/-- engine.py convert_text. -/
def convert_text (fpow : ℚ → ℚ → ℚ) (text : PyStr) (specs : List KeywordSpec)
    (src dst : BaseUnits) (custom_transforms : Option CustomTransformMap) :
    Except PyStr PyStr :=
  let lines := splitKeep text
  let spec_map := specs.map (fun s => (pyToUpper s.keyword_prefix, s))
  do
    let out ← convert_text_go fpow spec_map src dst custom_transforms lines.length lines
    pure out.flatten

/-- models/mat_johnson_cook.py SPEC. -/
def MAT_JC : KeywordSpec :=
  ⟨pyOf "mat-jc", pyOf "*MAT_JOHNSON_COOK",
   [[pyOf "mid", pyOf "ro", pyOf "g", pyOf "e", pyOf "pr", pyOf "dtf", pyOf "vp", pyOf "rateop"],
    [pyOf "a", pyOf "b", pyOf "n", pyOf "c", pyOf "m", pyOf "tm", pyOf "tr", pyOf "epso"],
    [pyOf "cp", pyOf "pc", pyOf "spall", pyOf "it", pyOf "d1", pyOf "d2", pyOf "d3", pyOf "d4"],
    [pyOf "d5", pyOf "c2/p/xnp", pyOf "erod", pyOf "efmin", pyOf "numint", pyOf "_", pyOf "_", pyOf "dmodel"]],
   [(pyOf "ro", some (1, -3, 0)), (pyOf "g", some (1, -1, -2)), (pyOf "e", some (1, -1, -2)),
    (pyOf "a", some (1, -1, -2)), (pyOf "b", some (1, -1, -2)), (pyOf "pc", some (1, -1, -2)),
    (pyOf "cp", some (0, 2, -2)), (pyOf "epso", some (0, 0, -1))]⟩

/-- models/eos_gruneisen.py SPEC. -/
def EOS_GRUNEISEN : KeywordSpec :=
  ⟨pyOf "eos-gruneisen", pyOf "*EOS_GRUNEISEN",
   [[pyOf "eosid", pyOf "c", pyOf "s1", pyOf "s2", pyOf "s3", pyOf "gamma0", pyOf "a", pyOf "e0"],
    [pyOf "v0", pyOf "_", pyOf "lcid", pyOf "_", pyOf "_", pyOf "_", pyOf "_", pyOf "_"]],
   [(pyOf "c", some (0, 1, -1)), (pyOf "e0", some (1, -1, -2))]⟩

/-- models/eos_ignition_growth.py CARDS and DIMS.  The source passes a
fifth argument transforms=TRANSFORMS to the KeywordSpec constructor,
but the engine's KeywordSpec dataclass has no such field (constructing
this spec in Python raises TypeError); the spec record can only carry
the four supported fields. -/
def EOS_IGNITION_GROWTH : KeywordSpec :=
  ⟨pyOf "eos-ignition-growth", pyOf "*EOS_IGNITION_AND_GROWTH_OF_REACTION_IN_HE",
   [[pyOf "eosid", pyOf "a", pyOf "b", pyOf "xp1", pyOf "xp2", pyOf "frer", pyOf "g", pyOf "r1"],
    [pyOf "r2", pyOf "r3", pyOf "r5", pyOf "r6", pyOf "fmxig", pyOf "freq", pyOf "grow1", pyOf "em"],
    [pyOf "ar1", pyOf "es1", pyOf "cvp", pyOf "cvr", pyOf "eetal", pyOf "ccrit", pyOf "enq", pyOf "tmp0"],
    [pyOf "grow2", pyOf "ar2", pyOf "es2", pyOf "en", pyOf "fmxgr", pyOf "fmngr", pyOf "_", pyOf "_"]],
   [(pyOf "a", some (1, -1, -2)), (pyOf "b", some (1, -1, -2)), (pyOf "r1", some (1, -1, -2)),
    (pyOf "r2", some (1, -1, -2)), (pyOf "fmxig", some (1, -1, -2)), (pyOf "cvp", some (1, -1, -2)),
    (pyOf "cvr", some (1, -1, -2)), (pyOf "g", some (0, 2, -2)), (pyOf "r3", some (0, 2, -2)),
    (pyOf "freq", some (0, 0, -1)), (pyOf "grow1", some (0, 0, -1)), (pyOf "grow2", some (0, 0, -1)),
    (pyOf "fmxgr", some (0, 0, -1)), (pyOf "fmngr", some (0, 0, -1))]⟩

/-- models/eos_ignition_growth.py TRANSFORMS table (declared in the
module; the engine's KeywordSpec cannot hold it, see above).
FieldTransform fields: power, multiplier, offset, dim, scale_dim,
scale_dim_field, scale_power_field, scale_power. -/
def IG_TRANSFORMS : List (PyStr × FieldTransform) :=
  [(pyOf "grow1",
    ⟨1, 1, 0, some (0, 0, -1), some (1, -1, -2), none, some (pyOf "es1"), none⟩),
   (pyOf "grow2",
    ⟨1, 1, 0, some (0, 0, -1), some (1, -1, -2), none, some (pyOf "es2"), none⟩)]

/-- models/eos_jwl.py SPEC. -/
def EOS_JWL : KeywordSpec :=
  ⟨pyOf "eos-jwl", pyOf "*EOS_JWL",
   [[pyOf "eosid", pyOf "a", pyOf "b", pyOf "r1", pyOf "r2", pyOf "omeg", pyOf "e0", pyOf "vo"]],
   [(pyOf "a", some (1, -1, -2)), (pyOf "b", some (1, -1, -2)), (pyOf "e0", some (1, -1, -2))]⟩

/-- models/mat_high_explosive_burn.py SPEC. -/
def MAT_HE_BURN : KeywordSpec :=
  ⟨pyOf "mat-he-burn", pyOf "*MAT_HIGH_EXPLOSIVE_BURN",
   [[pyOf "mid", pyOf "ro", pyOf "d", pyOf "pcj", pyOf "beta", pyOf "k", pyOf "g", pyOf "sigy"]],
   [(pyOf "ro", some (1, -3, 0)), (pyOf "d", some (0, 1, -1)), (pyOf "pcj", some (1, -1, -2)),
    (pyOf "sigy", some (1, -1, -2))]⟩

/-- models/eos_jwlb.py SPEC (defined in the source tree but not listed
in models/__init__.py ALL_SPECS). -/
def EOS_JWLB : KeywordSpec :=
  ⟨pyOf "eos-jwlb", pyOf "*EOS_JWLB",
   [[pyOf "eosid", pyOf "a1", pyOf "a2", pyOf "a3", pyOf "a4", pyOf "a5", pyOf "_", pyOf "_"],
    [pyOf "r1", pyOf "r2", pyOf "r3", pyOf "r4", pyOf "r5", pyOf "_", pyOf "_", pyOf "_"],
    [pyOf "al1", pyOf "al2", pyOf "al3", pyOf "al4", pyOf "al5", pyOf "_", pyOf "_", pyOf "_"],
    [pyOf "bl1", pyOf "bl2", pyOf "bl3", pyOf "bl4", pyOf "bl5", pyOf "_", pyOf "_", pyOf "_"],
    [pyOf "rl1", pyOf "rl2", pyOf "rl3", pyOf "rl4", pyOf "rl5", pyOf "_", pyOf "_", pyOf "_"],
    [pyOf "c", pyOf "omega", pyOf "e", pyOf "v0", pyOf "_", pyOf "_", pyOf "_", pyOf "_"]],
   [(pyOf "a1", some (1, -1, -2)), (pyOf "a2", some (1, -1, -2)), (pyOf "a3", some (1, -1, -2)),
    (pyOf "a4", some (1, -1, -2)), (pyOf "a5", some (1, -1, -2)), (pyOf "c", some (1, -1, -2)),
    (pyOf "e", some (1, -1, -2))]⟩

/-- models/__init__.py ALL_SPECS, in source order (eos_jwlb's and
mat_null's SPECs are not included there). -/
def ALL_SPECS : List KeywordSpec :=
  [MAT_JC, EOS_GRUNEISEN, EOS_IGNITION_GROWTH, EOS_JWL, MAT_HE_BURN]

/-- api.py list_models. -/
def list_models : List PyStr := ALL_SPECS.map (fun s => s.name)

/-- models/__init__.py SPECS_BY_NAME lookup. -/
def specByName (m : PyStr) : Option KeywordSpec :=
  ALL_SPECS.find? (fun s => s.name = m)

/-- Python s.split(","). -/
def splitCommaAux : PyStr → PyStr → List PyStr
  | acc, [] => [acc.reverse]
  | acc, ',' :: rest => acc.reverse :: splitCommaAux [] rest
  | acc, c :: rest => splitCommaAux (c :: acc) rest

def splitComma (s : PyStr) : List PyStr := splitCommaAux [] s

/-- api.py models argument: a string or a list of names. -/
inductive ModelsArg where
  | str (s : PyStr)
  | list (l : List PyStr)

/-- api.py unknown-models error message. -/
def unknownModelsMsg (unknown : List PyStr) : PyStr :=
  pyOf "Unknown models: " ++ pyReprStrList unknown ++ pyOf ". Known: " ++
    List.intercalate (pyOf ", ") (sortStrs list_models)

def resolveSpecList (l : List PyStr) : Except PyStr (List KeywordSpec) :=
  let unknown := l.filter (fun m => !(specByName m).isSome)
  if !unknown.isEmpty then .error (unknownModelsMsg unknown)
  else .ok (l.filterMap specByName)

/-- api.py _resolve_specs. -/
def _resolve_specs (models : ModelsArg) : Except PyStr (List KeywordSpec) :=
  match models with
  | .str s =>
    if pyToLower (pyStrip s) = pyOf "all" then .ok ALL_SPECS
    else resolveSpecList ((splitComma s).map pyStrip |>.filter (fun m => !m.isEmpty))
  | .list l => resolveSpecList l

/-- api.py convert_string: unit-key lookups (KeyError becomes the
Unknown-unit ValueError), spec resolution, then convert_text.  The
custom-transform map is taken as the already-validated in-memory
structure the spec assigns to external collaborators. -/
def convert_string (fpow : ℚ → ℚ → ℚ) (text : PyStr) (src dst : PyStr)
    (models : ModelsArg) (custom_transforms : Option CustomTransformMap) :
    Except PyStr PyStr :=
  match BASE_SYSTEMS.lookup src with
  | none => .error (unknownUnitMsg src)
  | some src_u =>
    match BASE_SYSTEMS.lookup dst with
    | none => .error (unknownUnitMsg dst)
    | some dst_u => do
      let specs ← _resolve_specs models
      convert_text fpow text specs src_u dst_u custom_transforms

/-- Concrete stand-in for Python float ** used in closed evaluations:
exact on integer exponents (the only exponents those evaluations
exercise). -/
def powQ (x e : ℚ) : ℚ := if e.den = 1 then x ^ e.num else 0

/-- Substring test (used to state facts about error-message contents). -/
def isSubstr (pat s : PyStr) : Bool :=
  (List.range (s.length + 1)).any (fun i => pat.isPrefixOf (s.drop i))

/-- scaleFactor as worded by the spec: (src.mass/dst.mass)^massExp *
(src.length/dst.length)^lengthExp * (src.time/dst.time)^timeExp. -/
def scaleFactorSpec (src dst : BaseUnits) (dim : DIM) : ℚ :=
  (src.mass_si / dst.mass_si) ^ dim.1
    * (src.length_si / dst.length_si) ^ dim.2.1
    * (src.time_si / dst.time_si) ^ dim.2.2

/-- The formatting chain as worded by the spec: 0.0 literal, first
general rendering of length ≤ 10 with precision descending 9..4, else
first scientific rendering of length ≤ 10 with precision descending
4..0, else the 3-digit scientific rendering truncated to 10. -/
def fmtChainSpec (v : ℚ) : PyStr :=
  if v = 0 then pyOf "0.0"
  else if (gFormat 9 v).length ≤ 10 then gFormat 9 v
  else if (gFormat 8 v).length ≤ 10 then gFormat 8 v
  else if (gFormat 7 v).length ≤ 10 then gFormat 7 v
  else if (gFormat 6 v).length ≤ 10 then gFormat 6 v
  else if (gFormat 5 v).length ≤ 10 then gFormat 5 v
  else if (gFormat 4 v).length ≤ 10 then gFormat 4 v
  else if (eFormat 4 v).length ≤ 10 then eFormat 4 v
  else if (eFormat 3 v).length ≤ 10 then eFormat 3 v
  else if (eFormat 2 v).length ≤ 10 then eFormat 2 v
  else if (eFormat 1 v).length ≤ 10 then eFormat 1 v
  else if (eFormat 0 v).length ≤ 10 then eFormat 0 v
  else (eFormat 3 v).take 10

/-- The registered mm-mg-us system (length 1e-3 m, mass 1e-6 kg, time 1e-6 s). -/
def sysMmMgUs : BaseUnits := ⟨1/1000, 1/1000000, 1/1000000⟩

/-- The registered cm-g-us system. -/
def sysCmGUs : BaseUnits := ⟨1/100, 1/1000, 1/1000000⟩

/-- The registered m-kg-s system. -/
def sysMKgS : BaseUnits := ⟨1, 1, 1⟩

/-- The *EOS_IGNITION_AND_GROWTH... reference block of the repository's
test fixture, with the es1 slot (card 3, slot 1) a parameter. -/
def igBlock (es1 : PyStr) : List PyStr :=
  [pyOf "*EOS_IGNITION_AND_GROWTH_OF_REACTION_IN_HE\n",
   join_fixed [pyOf "10", pyOf "5.242", pyOf "0.07678", pyOf "4.2", pyOf "1.1", pyOf "0.667", pyOf "3.4E-6", pyOf "780"],
   join_fixed [pyOf "-0.05031", pyOf "2.22E-5", pyOf "11.3", pyOf "1.13", pyOf "0.022", pyOf "4E6", pyOf "850", pyOf "2"],
   join_fixed [pyOf "0.667", es1, pyOf "1E-5", pyOf "2.49E-5", pyOf "7", pyOf "0", pyOf "0.085", pyOf "298"],
   join_fixed [pyOf "660", pyOf "1", pyOf "0.333", pyOf "3", pyOf "0.6", pyOf "0", pyOf "", pyOf ""]]

/-- The *EOS_JWLB reference block of the repository's test fixture. -/
def jwlbBlock : List PyStr :=
  [pyOf "*EOS_JWLB\n",
   join_fixed [pyOf "4", pyOf "490.07", pyOf "56.868", pyOf "0.82426", pyOf "0.00093", pyOf "0.0", pyOf "", pyOf ""],
   join_fixed [pyOf "40.713", pyOf "9.6754", pyOf "2.435", pyOf "0.1556", pyOf "0.0", pyOf "", pyOf "", pyOf ""],
   join_fixed [pyOf "0.0", pyOf "11.468", pyOf "0.0", pyOf "0.0", pyOf "0.0", pyOf "", pyOf "", pyOf ""],
   join_fixed [pyOf "1098.0", pyOf "-6.5011", pyOf "0.0", pyOf "0.0", pyOf "0.0", pyOf "", pyOf "", pyOf ""],
   join_fixed [pyOf "15.614", pyOf "2.1593", pyOf "0.0", pyOf "0.0", pyOf "0.0", pyOf "", pyOf "", pyOf ""],
   join_fixed [pyOf "0.071", pyOf "0.30270", pyOf "0.06656", pyOf "0.613127", pyOf "", pyOf "", pyOf "", pyOf ""]]

def jwlbText : PyStr := jwlbBlock.flatten

/-- A two-line block (keyword plus a non-numeric title line) with no
qualifying data line. -/
def titleOnlyBlock : List PyStr :=
  [pyOf "*EOS_JWL\n", pyOf "no numbers here\n"]

theorem filter_enumFrom_length {α : Type} (f : α → Bool) :
    ∀ (k : Nat) (l : List α),
      ((List.enumFrom k l).filter (fun p => f p.2)).length = (l.filter f).length := by
  intro k l
  induction l generalizing k with
  | nil => rfl
  | cons a t ih =>
    simp only [List.enumFrom, List.filter]
    cases h : f a <;> simp [h, ih]

theorem extract_data_lines_length (block : List PyStr) (n : Nat) :
    (_extract_data_lines block n).length =
      min n ((block.filter (fun l => _is_data_line l)).length) := by
  simp [_extract_data_lines, List.enum, filter_enumFrom_length]

/-- C3: a keyword block with fewer qualifying data lines (non-blank,
not a * or $ line, numeric first fixed-width field) than the spec has
cards is returned by convert_block byte-for-byte unchanged, with no
error. -/
theorem C3_malformed_block_passthrough (fpow : ℚ → ℚ → ℚ) (block : List PyStr)
    (spec : KeywordSpec) (src dst : BaseUnits) (ct : Option CustomTransformMap)
    (h : (block.filter (fun l => _is_data_line l)).length < spec.cards.length) :
    convert_block fpow block spec src dst ct = .ok block := by
  have hlen : (_extract_data_lines block spec.cards.length).length < spec.cards.length := by
    rw [extract_data_lines_length]
    omega
  simp only [convert_block]
  rw [if_pos hlen]

theorem C3_malformed_block_passthrough_witness :
    ((titleOnlyBlock.filter (fun l => _is_data_line l)).length < EOS_JWL.cards.length)
    ∧ convert_block powQ titleOnlyBlock EOS_JWL sysMmMgUs sysMKgS none = .ok titleOnlyBlock :=
  ⟨by decide,
   C3_malformed_block_passthrough powQ titleOnlyBlock EOS_JWL sysMmMgUs sysMKgS none (by decide)⟩

/-- C5: scale_factor computes exactly the spec's monomial
(mass ratio)^a * (length ratio)^b * (time ratio)^c for every pair of
systems and every integer dimension triple, and the static registry
holds mm-mg-us, cm-g-us, m-kg-s and mm-mg-ms with exactly the spec's
SI-equivalent constants. -/
theorem C5_scale_factor_formula_and_registry :
    (∀ (src dst : BaseUnits) (dim : DIM),
        scale_factor src dst dim = scaleFactorSpec src dst dim)
    ∧ BASE_SYSTEMS.lookup (pyOf "mm-mg-us") =
        some ⟨1/1000, 1/1000000, 1/1000000⟩
    ∧ BASE_SYSTEMS.lookup (pyOf "cm-g-us") = some ⟨1/100, 1/1000, 1/1000000⟩
    ∧ BASE_SYSTEMS.lookup (pyOf "m-kg-s") = some ⟨1, 1, 1⟩
    ∧ BASE_SYSTEMS.lookup (pyOf "mm-mg-ms") = some ⟨1/1000, 1/1000000, 1/1000⟩ :=
  ⟨fun _ _ _ => rfl, by decide, by decide, by decide, by decide⟩

/-- C8: an unknown base-unit-system key as src or as dst makes
convert_string fail with the error that names the bad key and lists the
known keys, before any conversion output is produced (the call's result
is the error alone). -/
theorem C8_unknown_unit_aborts (fpow : ℚ → ℚ → ℚ) (text src dst : PyStr)
    (models : ModelsArg) (ct : Option CustomTransformMap) :
    (BASE_SYSTEMS.lookup src = none →
      convert_string fpow text src dst models ct = .error (unknownUnitMsg src))
    ∧ (∀ u, BASE_SYSTEMS.lookup src = some u → BASE_SYSTEMS.lookup dst = none →
      convert_string fpow text src dst models ct = .error (unknownUnitMsg dst))
    ∧ get_unit_keys =
        [pyOf "cm-g-us", pyOf "m-kg-s", pyOf "mm-mg-ms", pyOf "mm-mg-us"]
    ∧ (∀ k, unknownUnitMsg k =
        pyOf "Unknown unit key " ++ sqc :: k ++ sqc :: pyOf ". Known: " ++
          pyReprStrList get_unit_keys) := by
  refine ⟨?_, ?_, by decide, fun k => rfl⟩
  · intro h
    simp [convert_string, h]
  · intro u h1 h2
    simp [convert_string, h1, h2]

theorem C8_unknown_unit_aborts_witness :
    convert_string powQ (pyOf "*EOS_JWL\n") (pyOf "zz") (pyOf "m-kg-s")
        (.str (pyOf "all")) none = .error (unknownUnitMsg (pyOf "zz")) :=
  (C8_unknown_unit_aborts powQ (pyOf "*EOS_JWL\n") (pyOf "zz") (pyOf "m-kg-s")
    (.str (pyOf "all")) none).1 (by decide)

/-- C1: evaluating convert_block at the repository's own
eos-ignition-growth reference block (src mm-mg-us, dst m-kg-s, no
caller-supplied custom transforms) shows that the grow1 field is
rewritten to raw * scaleFactor(src,dst,(0,0,-1)) only: the output is
the same whether the es1 slot holds 0.222 or 1, and it differs from the
value the spec's declared per-field transform (secondary pressure
factor scaleFactor(src,dst,(1,-1,-2)) ** es1, here with es1 = 1) would
produce.  The engine's KeywordSpec carries no transforms field, so
spec-declared transforms never reach the rewrite step. -/
theorem C1_spec_transforms_not_applied :
    ((convert_block powQ (igBlock (pyOf "0.222")) EOS_IGNITION_GROWTH sysMmMgUs sysMKgS
        none).map (fun out => pyStrip ((split_fixed (out.getD 2 [])).getD 6 []))
      = .ok (pyOf "850000000"))
    ∧ ((convert_block powQ (igBlock (pyOf "1")) EOS_IGNITION_GROWTH sysMmMgUs sysMKgS
        none).map (fun out => pyStrip ((split_fixed (out.getD 2 [])).getD 6 []))
      = .ok (pyOf "850000000"))
    ∧ pyOf "850000000" = format_lsdyna_10 (850 * scale_factor sysMmMgUs sysMKgS (0, 0, -1))
    ∧ format_lsdyna_10 (850 * scale_factor sysMmMgUs sysMKgS (0, 0, -1)
        * powQ (scale_factor sysMmMgUs sysMKgS (1, -1, -2)) 1) ≠ pyOf "850000000" :=
  ⟨rfl, rfl, rfl, by decide⟩

/-- C2: the eos-jwlb spec is not in the model registry: it is missing
from list_models, and convert_string with models "eos-jwlb" fails with
the Unknown-models error instead of converting.  Converting the
reference block with the EOS_JWLB spec applied directly does produce
A1 rewritten to 490.07 * scaleFactor(cm-g-us, m-kg-s, (1,-1,-2))
formatted via format_lsdyna_10, with non-pressure fields such as r1 and
omega unchanged in value. -/
theorem C2_eos_jwlb_not_registered :
    (pyOf "eos-jwlb") ∉ list_models
    ∧ convert_string powQ jwlbText (pyOf "cm-g-us") (pyOf "m-kg-s")
        (.str (pyOf "eos-jwlb")) none = .error (unknownModelsMsg [pyOf "eos-jwlb"])
    ∧ ((convert_block powQ jwlbBlock EOS_JWLB sysCmGUs sysMKgS none).map
        (fun out => pyStrip ((split_fixed (out.getD 1 [])).getD 1 []))
      = .ok (format_lsdyna_10 (49007/100 * scale_factor sysCmGUs sysMKgS (1, -1, -2))))
    ∧ ((convert_block powQ jwlbBlock EOS_JWLB sysCmGUs sysMKgS none).map
        (fun out => pyStrip ((split_fixed (out.getD 2 [])).getD 0 []))
      = .ok (pyOf "40.713"))
    ∧ ((convert_block powQ jwlbBlock EOS_JWLB sysCmGUs sysMKgS none).map
        (fun out => pyStrip ((split_fixed (out.getD 6 [])).getD 1 []))
      = .ok (pyOf "0.3027"))
    ∧ pyFloat? (pyOf "0.3027") = pyFloat? (pyOf "0.30270") :=
  ⟨by decide, rfl, rfl, rfl, rfl, by decide⟩

theorem dropWhile_idem {α : Type} (p : α → Bool) (l : List α) :
    List.dropWhile p (List.dropWhile p l) = List.dropWhile p l := by
  induction l with
  | nil => rfl
  | cons a t ih =>
    by_cases h : p a
    · simp [List.dropWhile_cons, h, ih]
    · simp [List.dropWhile_cons, h]

theorem dropWhile_head_false {α : Type} (p : α → Bool) (a : α) (t : List α)
    (h : List.dropWhile p (a :: t) = a :: t) : p a = false := by
  by_cases hp : p a
  · exfalso
    have h1 : List.dropWhile p (a :: t) = List.dropWhile p t := by
      simp [List.dropWhile_cons, hp]
    have h2 : (List.dropWhile p t).length ≤ t.length :=
      (List.dropWhile_sublist p).length_le
    rw [h] at h1
    have h3 := congrArg List.length h1
    simp at h3
    omega
  · simpa using hp

theorem dropWhile_eq_self_of_prefix {α : Type} (p : α → Bool) (m u : List α)
    (hu : List.dropWhile p u = u) (hm : m <+: u) : List.dropWhile p m = m := by
  cases m with
  | nil => rfl
  | cons a t =>
    obtain ⟨r, hr⟩ := hm
    subst hr
    have ha : p a = false := dropWhile_head_false p a (t ++ r) hu
    simp [List.dropWhile_cons, ha]

theorem pyStrip_idem (s : PyStr) : pyStrip (pyStrip s) = pyStrip s := by
  have hu := dropWhile_idem Char.isWhitespace s
  have hrev : (pyStrip s).reverse
      = (s.dropWhile Char.isWhitespace).reverse.dropWhile Char.isWhitespace := by
    simp [pyStrip]
  have hm : pyStrip s <+: s.dropWhile Char.isWhitespace := by
    rw [← List.reverse_suffix, hrev]
    exact List.dropWhile_suffix _
  have h1 : (pyStrip s).dropWhile Char.isWhitespace = pyStrip s :=
    dropWhile_eq_self_of_prefix _ _ _ hu hm
  show (((pyStrip s).dropWhile Char.isWhitespace).reverse.dropWhile
      Char.isWhitespace).reverse = pyStrip s
  rw [h1, hrev, dropWhile_idem, ← hrev, List.reverse_reverse]

theorem dropWhile_ws_replicate (k : Nat) (s : PyStr) :
    List.dropWhile Char.isWhitespace (List.replicate k ' ' ++ s)
      = List.dropWhile Char.isWhitespace s := by
  induction k with
  | zero => rfl
  | succ n ih =>
    simp [List.replicate_succ, List.dropWhile_cons,
      show (' ').isWhitespace = true from rfl, ih]

theorem pyStrip_replicate_append (k : Nat) (s : PyStr) :
    pyStrip (List.replicate k ' ' ++ s) = pyStrip s := by
  show ((List.dropWhile Char.isWhitespace
      (List.replicate k ' ' ++ s)).reverse.dropWhile Char.isWhitespace).reverse
    = pyStrip s
  rw [dropWhile_ws_replicate]
  rfl

theorem pyFloat_strip_isNumber {raw : PyStr} {q : ℚ}
    (hq : pyFloat? (pyStrip raw) = some q) :
    is_number (pyStrip raw) = true ∧ (pyStrip raw).isEmpty = false := by
  constructor
  · simp [is_number, pyStrip_idem, hq]
  · cases hemp : (pyStrip raw).isEmpty
    · rfl
    · exfalso
      have he : pyStrip raw = [] := by simpa using hemp
      rw [he] at hq
      exact absurd hq (by simp [show pyFloat? ([] : PyStr) = none from rfl])

/-- C6: converting between identical base systems is the identity on
values: scale_factor s s dim = 1 for every dimension vector, and a
numeric field with no transform is re-emitted as its unchanged numeric
value, reformatted through format_lsdyna_10. -/
theorem C6_roundtrip_identity (s : BaseUnits) (h1 : 0 < s.mass_si)
    (h2 : 0 < s.length_si) (h3 : 0 < s.time_si) :
    (∀ dim : DIM, scale_factor s s dim = 1)
    ∧ ∀ (fpow : ℚ → ℚ → ℚ) (name raw : PyStr) (dims : List (PyStr × Option DIM))
        (ctx : Option Ctx) (q : ℚ), pyFloat? (pyStrip raw) = some q →
        _convert_field fpow name raw s s dims none ctx = .ok (format_lsdyna_10 q) := by
  have hsf : ∀ dim : DIM, scale_factor s s dim = 1 := by
    intro d
    obtain ⟨a, b, c⟩ := d
    simp [scale_factor, div_self (ne_of_gt h1), div_self (ne_of_gt h2),
      div_self (ne_of_gt h3)]
  refine ⟨hsf, ?_⟩
  intro fpow name raw dims ctx q hq
  obtain ⟨hnum, hne⟩ := pyFloat_strip_isNumber hq
  cases hdim : dimsGet dims name with
  | some d => simp [_convert_field, hnum, hne, hq, hdim, hsf d]
  | none => simp [_convert_field, hnum, hne, hq, hdim]

theorem C6_roundtrip_identity_witness :
    scale_factor sysMmMgUs sysMmMgUs (1, -1, -2) = 1
    ∧ _convert_field powQ (pyOf "a") (pyOf "  2.5  ") sysMmMgUs sysMmMgUs
        [(pyOf "a", some (1, 0, 0))] none none = .ok (pyOf "2.5") := by
  have h := C6_roundtrip_identity sysMmMgUs (by decide) (by decide) (by decide)
  refine ⟨h.1 (1, -1, -2), ?_⟩
  have h2 := h.2 powQ (pyOf "a") (pyOf "  2.5  ") [(pyOf "a", some (1, 0, 0))]
    none (5/2) (by decide)
  rw [h2]
  exact congrArg Except.ok (by decide)

/-- C10: a transform whose scale_dim_field names a dims key mapped to
None, with no scale_dim set, raises no error and applies no secondary
scale factor: the numeric value skips dimensional scaling entirely,
the transform's power/multiplier/offset step is still applied, and the
result is reformatted through format_lsdyna_10. -/
theorem C10_none_dim_entry_skips_scaling (fpow : ℚ → ℚ → ℚ) (name raw : PyStr)
    (src dst : BaseUnits) (dims : List (PyStr × Option DIM)) (ctx : Option Ctx)
    (t : FieldTransform) (f : PyStr) (q : ℚ)
    (hsd : t.scale_dim = none) (hsdf : t.scale_dim_field = some f)
    (hf : dims.lookup f = some none) (hq : pyFloat? (pyStrip raw) = some q) :
    _convert_field fpow name raw src dst dims (some t) ctx =
      .ok (format_lsdyna_10 (fpow q t.power * t.multiplier + t.offset)) := by
  obtain ⟨hnum, hne⟩ := pyFloat_strip_isNumber hq
  simp [_convert_field, hnum, hne, hq, hsd, hsdf, hf,
    FieldTransform.has_custom_scaling, dimsContains, dimsGet, FieldTransform.apply]

theorem C10_none_dim_entry_skips_scaling_witness :
    _convert_field powQ (pyOf "x") (pyOf "3.0") sysMKgS sysMKgS
        [(pyOf "v0", none)] (some ⟨2, 1, 0, none, none, some (pyOf "v0"), none, none⟩)
        none = .ok (pyOf "9") := by
  have h := C10_none_dim_entry_skips_scaling powQ (pyOf "x") (pyOf "3.0")
    sysMKgS sysMKgS [(pyOf "v0", none)] none
    ⟨2, 1, 0, none, none, some (pyOf "v0"), none, none⟩ (pyOf "v0") 3
    rfl rfl (by decide) (by decide)
  rw [h]
  exact congrArg Except.ok (by decide)

/-- C9 counterexample: a numeric field whose transform declares an
unknown scale_dim_field together with a scale_dim converts without any
error (scale_dim wins and the dangling reference is never checked),
and the error message the unknown-scale_dim_field path does produce
contains the converted and referenced field names but not the spec's
name. -/
theorem C9_counterexample :
    _convert_field powQ (pyOf "grow1") (pyOf "2.0") sysMmMgUs sysMKgS
        EOS_IGNITION_GROWTH.dims
        (some ⟨1, 1, 0, none, some (1, -1, -2), some (pyOf "nope"), none, none⟩)
        none
      = .ok (pyOf "2e+09")
    ∧ isSubstr EOS_IGNITION_GROWTH.name
        (unknownScaleDimFieldMsg (pyOf "nope") (pyOf "grow1")) = false :=
  ⟨rfl, by decide⟩

/-- C9 amended: for a numeric field whose transform declares a
scale_dim_field, declares no scale_dim, and names a field that is not a
key of the spec's dims table, _convert_field fails with the
Unknown-scale_dim_field error naming the referenced field and the
converted field (no silent conversion on this path). -/
theorem C9_unknown_scale_dim_field_error (fpow : ℚ → ℚ → ℚ) (name raw : PyStr)
    (src dst : BaseUnits) (dims : List (PyStr × Option DIM)) (ctx : Option Ctx)
    (t : FieldTransform) (f : PyStr) (q : ℚ)
    (hsd : t.scale_dim = none) (hsdf : t.scale_dim_field = some f)
    (hf : dims.lookup f = none) (hq : pyFloat? (pyStrip raw) = some q) :
    _convert_field fpow name raw src dst dims (some t) ctx =
      .error (unknownScaleDimFieldMsg f name) := by
  obtain ⟨hnum, hne⟩ := pyFloat_strip_isNumber hq
  simp [_convert_field, hnum, hne, hq, hsd, hsdf, hf,
    FieldTransform.has_custom_scaling, dimsContains]

theorem C9_unknown_scale_dim_field_error_witness :
    _convert_field powQ (pyOf "grow1") (pyOf "2.0") sysMmMgUs sysMKgS
        EOS_IGNITION_GROWTH.dims
        (some ⟨1, 1, 0, none, none, some (pyOf "nope"), none, none⟩) none
      = .error (unknownScaleDimFieldMsg (pyOf "nope") (pyOf "grow1")) :=
  C9_unknown_scale_dim_field_error powQ (pyOf "grow1") (pyOf "2.0")
    sysMmMgUs sysMKgS EOS_IGNITION_GROWTH.dims none
    ⟨1, 1, 0, none, none, some (pyOf "nope"), none, none⟩ (pyOf "nope") 2
    rfl rfl (by decide) (by decide)

/-- C4: format_lsdyna_10 follows exactly the spec's chain (0.0 literal;
first general rendering of length ≤ 10 with precision 9,8,7,6,5,4; else
first scientific rendering of length ≤ 10 with precision 4,3,2,1,0;
else the 3-digit scientific rendering truncated to 10), it is total,
and its result never exceeds 10 characters. -/
theorem C4_format_chain (v : ℚ) :
    format_lsdyna_10 v = fmtChainSpec v ∧ (format_lsdyna_10 v).length ≤ 10 := by
  by_cases h0 : v = 0
  · refine ⟨by simp [format_lsdyna_10, fmtChainSpec, h0], ?_⟩
    simp [format_lsdyna_10, h0, pyOf]
  · simp only [format_lsdyna_10, fmtChainSpec, if_neg h0, List.map_cons, List.map_nil]
    by_cases h9 : (gFormat 9 v).length ≤ 10
    · rw [List.find?_cons_of_pos _ (by simpa using h9), if_pos h9]
      exact ⟨rfl, h9⟩
    rw [List.find?_cons_of_neg _ (by simpa using h9), if_neg h9]
    by_cases h8 : (gFormat 8 v).length ≤ 10
    · rw [List.find?_cons_of_pos _ (by simpa using h8), if_pos h8]
      exact ⟨rfl, h8⟩
    rw [List.find?_cons_of_neg _ (by simpa using h8), if_neg h8]
    by_cases h7 : (gFormat 7 v).length ≤ 10
    · rw [List.find?_cons_of_pos _ (by simpa using h7), if_pos h7]
      exact ⟨rfl, h7⟩
    rw [List.find?_cons_of_neg _ (by simpa using h7), if_neg h7]
    by_cases h6 : (gFormat 6 v).length ≤ 10
    · rw [List.find?_cons_of_pos _ (by simpa using h6), if_pos h6]
      exact ⟨rfl, h6⟩
    rw [List.find?_cons_of_neg _ (by simpa using h6), if_neg h6]
    by_cases h5 : (gFormat 5 v).length ≤ 10
    · rw [List.find?_cons_of_pos _ (by simpa using h5), if_pos h5]
      exact ⟨rfl, h5⟩
    rw [List.find?_cons_of_neg _ (by simpa using h5), if_neg h5]
    by_cases h4 : (gFormat 4 v).length ≤ 10
    · rw [List.find?_cons_of_pos _ (by simpa using h4), if_pos h4]
      exact ⟨rfl, h4⟩
    rw [List.find?_cons_of_neg _ (by simpa using h4), if_neg h4]
    simp only [List.find?_nil]
    by_cases e4 : (eFormat 4 v).length ≤ 10
    · rw [List.find?_cons_of_pos _ (by simpa using e4), if_pos e4]
      exact ⟨rfl, e4⟩
    rw [List.find?_cons_of_neg _ (by simpa using e4), if_neg e4]
    by_cases e3 : (eFormat 3 v).length ≤ 10
    · rw [List.find?_cons_of_pos _ (by simpa using e3), if_pos e3]
      exact ⟨rfl, e3⟩
    rw [List.find?_cons_of_neg _ (by simpa using e3), if_neg e3]
    by_cases e2 : (eFormat 2 v).length ≤ 10
    · rw [List.find?_cons_of_pos _ (by simpa using e2), if_pos e2]
      exact ⟨rfl, e2⟩
    rw [List.find?_cons_of_neg _ (by simpa using e2), if_neg e2]
    by_cases e1 : (eFormat 1 v).length ≤ 10
    · rw [List.find?_cons_of_pos _ (by simpa using e1), if_pos e1]
      exact ⟨rfl, e1⟩
    rw [List.find?_cons_of_neg _ (by simpa using e1), if_neg e1]
    by_cases e0 : (eFormat 0 v).length ≤ 10
    · rw [List.find?_cons_of_pos _ (by simpa using e0), if_pos e0]
      exact ⟨rfl, e0⟩
    rw [List.find?_cons_of_neg _ (by simpa using e0), if_neg e0]
    simp only [List.find?_nil]
    refine ⟨trivial, ?_⟩
    rw [List.length_take]
    exact Nat.min_le_left _ _

theorem fieldCol_length (f : PyStr) : (fieldCol f).length = 10 := by
  by_cases h : (pyStrip f).length > 10
  · simp [fieldCol, rjust, h, List.length_take]
  · simp [fieldCol, rjust, h]
    omega

theorem chunk10_flatten (l : List PyStr) (hl : ∀ x ∈ l, x.length = 10) :
    ∀ i, i < l.length → chunk10 l.flatten i = l.getD i [] := by
  induction l with
  | nil =>
    intro i hi
    exact absurd hi (by simp)
  | cons x t ih =>
    intro i hi
    have hx : x.length = 10 := hl x (by simp)
    cases i with
    | zero =>
      show ((x ++ t.flatten).drop (10 * 0)).take 10 = x
      rw [Nat.mul_zero, List.drop_zero, ← hx, List.take_left]
    | succ j =>
      show ((x ++ t.flatten).drop (10 * (j + 1))).take 10 = (x :: t).getD (j + 1) []
      have h1 : 10 * (j + 1) = x.length + 10 * j := by omega
      rw [h1, ← List.drop_drop, List.drop_left]
      exact ih (fun y hy => hl y (by simp [hy])) j (by simpa using hi)

/-- C7: join_fixed strips each field, truncates it to 10 characters if
its stripped form is longer, right-justifies it into a 10-character
column and appends exactly one newline; consequently any field whose
stripped value is at most 10 characters is recovered exactly by
split_fixed plus strip on the joined 8-field line. -/
theorem C7_join_fixed_roundtrip (fs : List PyStr) (h8 : fs.length = 8) :
    join_fixed fs = (fs.map fieldCol).flatten ++ ['\n']
    ∧ (∀ f, fieldCol f = rjust 10 ((pyStrip f).take 10))
    ∧ ∀ i, i < 8 → (pyStrip (fs.getD i [])).length ≤ 10 →
        pyStrip ((split_fixed (join_fixed fs)).getD i []) = pyStrip (fs.getD i []) := by
  refine ⟨rfl, ?_, ?_⟩
  · intro f
    by_cases h : (pyStrip f).length > 10
    · simp [fieldCol, h]
    · rw [List.take_of_length_le (by omega)]
      simp [fieldCol, h]
  · intro i hi hlen
    have hcols : ∀ x ∈ fs.map fieldCol, x.length = 10 := by
      intro x hx
      obtain ⟨f, _, rfl⟩ := List.mem_map.mp hx
      exact fieldCol_length f
    have hflat : (fs.map fieldCol).flatten.length = 80 := by
      rw [List.length_flatten, List.map_map]
      have hmap : fs.map (List.length ∘ fieldCol) = fs.map (fun _ => 10) :=
        List.map_congr_left (fun f _ => fieldCol_length f)
      rw [hmap, List.map_const']
      simp [h8]
    have hdtn : dropTrailingNewline (join_fixed fs) = (fs.map fieldCol).flatten := by
      simp [dropTrailingNewline, join_fixed, List.getLast?_concat, List.dropLast_concat]
    have hlj : ljust 80 ((fs.map fieldCol).flatten) = (fs.map fieldCol).flatten := by
      simp [ljust, hflat]
    have hsplit : split_fixed (join_fixed fs) =
        [chunk10 ((fs.map fieldCol).flatten) 0, chunk10 ((fs.map fieldCol).flatten) 1,
         chunk10 ((fs.map fieldCol).flatten) 2, chunk10 ((fs.map fieldCol).flatten) 3,
         chunk10 ((fs.map fieldCol).flatten) 4, chunk10 ((fs.map fieldCol).flatten) 5,
         chunk10 ((fs.map fieldCol).flatten) 6, chunk10 ((fs.map fieldCol).flatten) 7] := by
      simp only [split_fixed, hdtn, hlj]
    have hchunk : chunk10 ((fs.map fieldCol).flatten) i = (fs.map fieldCol).getD i [] :=
      chunk10_flatten _ hcols i (by simp [h8]; omega)
    have hi' : i < fs.length := by omega
    have hgd : (fs.map fieldCol).getD i [] = fieldCol (fs.getD i []) := by
      rw [List.getD_eq_getElem?_getD, List.getD_eq_getElem?_getD, List.getElem?_map,
        List.getElem?_eq_getElem hi']
      rfl
    have hfc : fieldCol (fs.getD i []) = rjust 10 (pyStrip (fs.getD i [])) := by
      have hn : ¬ (pyStrip (fs.getD i [])).length > 10 := by omega
      show rjust 10 (if (pyStrip (fs.getD i [])).length > 10
          then (pyStrip (fs.getD i [])).take 10 else pyStrip (fs.getD i [])) =
        rjust 10 (pyStrip (fs.getD i []))
      rw [if_neg hn]
    have hgdl : (split_fixed (join_fixed fs)).getD i []
        = chunk10 ((fs.map fieldCol).flatten) i := by
      rw [hsplit]
      interval_cases i <;> rfl
    rw [hgdl, hchunk, hgd, hfc, rjust, pyStrip_replicate_append]
    exact pyStrip_idem _

theorem C7_join_fixed_roundtrip_witness :
    pyStrip ((split_fixed (join_fixed [pyOf "123456789012", pyOf " abc ", pyOf "",
        pyOf "1", pyOf "2", pyOf "3", pyOf "4", pyOf "5"])).getD 1 []) = pyOf "abc" := by
  rw [(C7_join_fixed_roundtrip [pyOf "123456789012", pyOf " abc ", pyOf "", pyOf "1",
    pyOf "2", pyOf "3", pyOf "4", pyOf "5"] rfl).2.2 1 (by omega) (by decide)]
  decide
